import Mathlib

/-!
Shallow embedding of the PDF conversion orchestrator of this repository
(`marker/converters/pdf.py` and `main.py`): the renderer-selector parser
`renderer2cls`, the converter construction sequence of `PdfConverter.__init__`,
the processor-chain loop of `build_document`, the renderer fan-out
`render_document`, and the temporary-file lifecycle of `filepath_to_str` and
the HTTP handler's cleanup, together with theorems settling the specification
claims about them.

External collaborators (builders, providers, concrete renderer and processor
implementations, `BaseConverter.resolve_dependencies`) are modelled as opaque
inputs: a renderer is a function from a document to its (payload, images,
metadata) triple, a processor is a function from a document to a possibly
failing document, payloads and metadata are opaque tokens.
-/

/-- Python exception values raised by the embedded code paths. -/
inductive PyErr
  | unboundLocal (v : String)
  | typeError (msg : String)
  | valueError (msg : String)
  | osError
  | exc (msg : String)
  deriving Repr, DecidableEq

/-- Python `dict` with string keys: an association list with unique keys kept
in insertion order.  `updateD` is dict assignment: it rewrites the value of an
existing key in place, otherwise appends the new pair at the end. -/
abbrev Dict (V : Type) := List (String × V)

def updateD {V : Type} : Dict V → String → V → Dict V
  | [], k, v => [(k, v)]
  | p :: ds, k, v => if p.1 == k then (k, v) :: ds else p :: updateD ds k v

def lookupD {V : Type} : Dict V → String → Option V
  | [], _ => none
  | p :: ds, k => if p.1 == k then some p.2 else lookupD ds k

def keysD {V : Type} (d : Dict V) : List String := d.map (fun p => p.1)

def containsD {V : Type} : Dict V → String → Bool
  | [], _ => false
  | p :: ds, k => (p.1 == k) || containsD ds k

/-- Python `dict.pop(k)`: removes the (unique) entry for `k` when present. -/
def popD {V : Type} : Dict V → String → Dict V
  | [], _ => []
  | p :: ds, k => if p.1 == k then ds else p :: popD ds k

/-- A page of the document model (`marker.schema.document`): its id, the
`ignore_for_output` flag, its `structure` list of child-block identities
(already in string form: `str(identity)` is the identity itself here), and the
identities of the blocks that exist on the page. -/
structure Page where
  page_id : String
  ignore_for_output : Bool
  structure_ : List String
  blocks : List String
  deriving Repr, DecidableEq

/-- The document model: an ordered sequence of pages. -/
structure Document where
  pages : List Page
  deriving Repr, DecidableEq

/-- The three renderer classes dispatched on by `PdfConverter.render`
(pdf.py lines 228-242): `PageMarkdownRenderer`, `ChunkRenderer`,
`MarkdownRenderer`. -/
inductive RendererKind
  | pageMarkdown
  | chunk
  | markdown
  deriving Repr, DecidableEq

/-- A renderer's images output: a mapping from image key to an opaque image
payload. -/
abbrev Images := Dict Nat

/-- A resolved renderer instance: its class (for the name dispatch in
`PdfConverter.render`) and its behaviour, an external collaborator returning
the (payload, images, metadata) triple.  Payload and metadata are opaque. -/
structure Renderer where
  kind : RendererKind
  run : Document → Nat × Images × Nat

/-- External collaborator `marker.renderers.markdown.cleanup_text`, applied by
`PdfConverter.render` to string markdown payloads.  Payloads are opaque tokens
here, so the normalization is the identity; no verified claim depends on its
effect. -/
def cleanup_text (payload : Nat) : Nat := payload

/-- `PdfConverter.render` (pdf.py lines 228-242): dispatches on the renderer
class name and pairs the renderer's payload with its fixed output key.
Dependency resolution of the renderer class is external and is modelled by
`r` already being a resolved instance. -/
def PdfConverter.render (r : Renderer) (document : Document) :
    String × Nat × Images × Nat :=
  match r.kind with
  | .pageMarkdown =>
      let t := r.run document
      ("page_renders", t.1, t.2.1, t.2.2)
  | .chunk =>
      let t := r.run document
      ("chunks", t.1, t.2.1, t.2.2)
  | .markdown =>
      let t := r.run document
      ("markdown", cleanup_text t.1, t.2.1, t.2.2)

/-- A value stored in the `out_render` dict built by `render_document`. -/
inductive RVal
  | pstruct (m : Dict (List String))
  | payload (p : Nat)
  | images (m : Images)
  | meta (v : Nat)
  deriving Repr, DecidableEq

/-- One iteration of the `page_structure` loop of `render_document`
(pdf.py lines 247-251): assign under the page's id either `[]` (page ignored
for output) or the list of stringified structure identities. -/
def page_structure_step (d : Dict (List String)) (p : Page) : Dict (List String) :=
  updateD d p.page_id (if p.ignore_for_output then [] else p.structure_)

/-- The `page_structure` loop of `render_document` (pdf.py lines 246-251):
the iteration applied to every page in order, starting from the empty dict. -/
def page_structure (document : Document) : Dict (List String) :=
  document.pages.foldl page_structure_step []

/-- The runtime shape of `self.renderer` as inspected by `render_document`
(pdf.py lines 253-267): a list of renderer classes, a single renderer class,
or anything else (which raises `ValueError`). -/
inductive RendererCfg
  | list (rs : List Renderer)
  | single (r : Renderer)
  | other

/-- `PdfConverter.render_document` (pdf.py lines 244-269).  Builds
`out_render`: first the `page_structure` entry, then one payload entry per
renderer.  In the list branch each iteration assigns `out_render['images']`
(wholesale overwrite) and the Python local `metadata` holds the last
iteration's metadata, assigned after the loop — for an empty list `metadata`
was never assigned and the read raises `UnboundLocalError`.  In the single
branch the order is payload, metadata, images. -/
def render_document (rcfg : RendererCfg) (document : Document) :
    Except PyErr (Dict RVal) :=
  let out0 : Dict RVal := updateD [] "page_structure" (RVal.pstruct (page_structure document))
  match rcfg with
  | .list rs =>
      let res := rs.foldl
        (fun (acc : Dict RVal × Option Nat) r =>
          let t := PdfConverter.render r document
          (updateD (updateD acc.1 t.1 (RVal.payload t.2.1)) "images" (RVal.images t.2.2.1),
           some t.2.2.2))
        (out0, none)
      match res.2 with
      | some m => .ok (updateD res.1 "metadata" (RVal.meta m))
      | none => .error (.unboundLocal "metadata")
  | .single r =>
      let t := PdfConverter.render r document
      .ok (updateD (updateD (updateD out0 t.1 (RVal.payload t.2.1))
            "metadata" (RVal.meta t.2.2.2)) "images" (RVal.images t.2.2.1))
  | .other =>
      .error (.valueError
        "Renderer must be a BaseRenderer subclass or a list of BaseRenderer subclasses.")

/-- Reading a Python local variable: `some` when it has been assigned, and an
`UnboundLocalError` naming the variable when it has not. -/
def readLocal {A : Type} (v : String) : Option A → Except PyErr A
  | some a => .ok a
  | none => .error (.unboundLocal v)

/-- A Python value as produced by the renderer-selector parser. -/
inductive PyVal
  | none_
  | str (s : String)
  | list (l : List PyVal)

/-- `renderer2cls` (pdf.py lines 61-73).  The function's parameter is `name`,
but the body's first statement compares the variable `renderer`, which is only
ever assigned inside the branches; in Python that makes `renderer` an
unassigned local at the point of the read, so every call raises
`UnboundLocalError("renderer")` before any branch can execute.  (Independently,
the body contains no `return` statement, so even under the intended binding of
the parameter the function would fall off the end and produce `None` for every
input, recognized or not.)  The branch structure that the comparison guards —
mapping "pageMarkdown"/"markdown"/"chunks" to dotted class names, recursing on
"+"-joined selectors, and otherwise setting the local to `None` — is
unreachable, so its value never influences the result. -/
def renderer2cls (name : Option String) : Except PyErr PyVal :=
  match readLocal "renderer" (none : Option String) with
  | .error e => .error e
  | .ok _ => .ok PyVal.none_

/-- A configuration value (the config dict is heterogeneous). -/
inductive CVal
  | str (s : String)
  | bool (b : Bool)
  | none_
  deriving Repr, DecidableEq

/-- Python truthiness of a configuration value. -/
def truthyC : CVal → Bool
  | .str s => s != ""
  | .bool b => b
  | .none_ => false

/-- `config.get(k, default)` used in a boolean position. -/
def getBoolC (d : Dict CVal) (k : String) (dflt : Bool) : Bool :=
  match lookupD d k with
  | some v => truthyC v
  | none => dflt

/-- Events recorded while `PdfConverter.__init__` runs, in order: a dependency
resolution of a service class, a write into the Shared Artifact Bag, and the
`initialize_processors` call that resolves the processor stages. -/
inductive InitEvent
  | resolveService (cls : String)
  | bagWrite (k : String) (v : Option String)
  | initProcessors
  deriving Repr, DecidableEq

def isBagWrite : InitEvent → Bool
  | .bagWrite _ _ => true
  | _ => false

/-- The `default_processors` tuple of `PdfConverter` (pdf.py lines 93-122),
by class name, in order. -/
def default_processors : List String :=
  ["OrderProcessor", "BlockRelabelProcessor", "LineMergeProcessor",
   "BlockquoteProcessor", "CodeProcessor", "DocumentTOCProcessor",
   "EquationProcessor", "FootnoteProcessor", "IgnoreTextProcessor",
   "LineNumbersProcessor", "ListProcessor", "PageHeaderProcessor",
   "SectionHeaderProcessor", "TableProcessor", "LLMTableProcessor",
   "LLMTableMergeProcessor", "LLMFormProcessor", "TextProcessor",
   "LLMComplexRegionProcessor", "LLMImageDescriptionProcessor",
   "LLMEquationProcessor", "LLMHandwritingProcessor", "LLMMathBlockProcessor",
   "LLMSectionHeaderProcessor", "LLMPageCorrectionProcessor",
   "ReferenceProcessor", "BlankPageProcessor", "DebugProcessor"]

/-- `default_llm_service` (pdf.py line 123): `GoogleGeminiService`. -/
def default_llm_service : String := "GoogleGeminiService"

/-- Python truthiness of the renderer value tested at pdf.py line 162. -/
def rendererTruthy : PyVal → Bool
  | .none_ => false
  | .str s => s != ""
  | .list l => !l.isEmpty

/-- The renderer class names handed to `strings_to_classes` at line 163
(`strings_to_classes` itself is an external name-to-class lookup, modelled by
keeping the names). -/
def rendererClasses : PyVal → List String
  | .none_ => []
  | .str s => [s]
  | .list l => l.foldr (fun v acc => match v with | .str s => s :: acc | _ => acc) []

/-- The converter state produced by `PdfConverter.__init__`. -/
structure InitRes where
  config : Dict CVal
  ignore_blocks : List String
  artifact_dict : Dict (Option String)
  llm_service : Option String
  renderer : List String
  processor_list : List String
  events : List InitEvent
  deriving Repr, DecidableEq

/-- Lines 134-186 of `PdfConverter.__init__`: everything after the
`renderer2cls` call at line 133 (that call itself always raises — see
`renderer2cls` — so this models the construction sequence given the value
`renderer` that the call would produce).  `config` is the caller's config
dict, mutated in place by the two `pop` statements; `artifact_dict` is the
caller's Shared Artifact Bag.  `super().__init__(config)` and the block-class
registration loop over the (empty by default) `override_map` have no effect on
the modelled state; `strings_to_classes` and `resolve_dependencies` are
external and are modelled by the class names and by `resolveService` events. -/
def PdfConverter.init_after_renderer
    (artifact_dict : Dict (Option String))
    (processor_list : Option (List String))
    (config : Dict CVal)
    (renderer : PyVal) : InitRes :=
  -- lines 135-136: if "renderer" in config: config.pop("renderer")
  let config := if containsD config "renderer" then popD config "renderer" else config
  -- line 138: llm_service = config.get("llm_service", None)
  let llm_service0 := lookupD config "llm_service"
  -- lines 140-141: if "llm_service" in config: config.pop("llm_service")
  let config := if containsD config "llm_service" then popD config "llm_service" else config
  -- lines 149-152: ignore-block list from config
  let ignore_blocks := if getBoolC config "ignore_TOC" false then ["TableOfContents"] else []
  -- lines 157-160: processor list override or default
  let processors := match processor_list with
    | some l => l
    | none => default_processors
  -- lines 162-165: renderer classes or the default pair
  let rendererCls := if rendererTruthy renderer then rendererClasses renderer
    else ["PageMarkdownRenderer", "ChunkRenderer"]
  -- lines 170-174: resolve an explicit llm_service, else the default when use_llm
  let step1 : List InitEvent × Option String :=
    if (llm_service0.map truthyC).getD false then
      let cls := match llm_service0 with | some (.str s) => s | _ => ""
      ([InitEvent.resolveService cls], some cls)
    else if getBoolC config "use_llm" false then
      ([InitEvent.resolveService default_llm_service], some default_llm_service)
    else ([], none)
  -- line 177: artifact_dict["llm_service"] = llm_service
  let artifact_dict := updateD artifact_dict "llm_service" step1.2
  -- line 182: initialize_processors resolves the processor stages
  let events := step1.1 ++ [InitEvent.bagWrite "llm_service" step1.2, InitEvent.initProcessors]
  { config := config
    ignore_blocks := ignore_blocks
    artifact_dict := artifact_dict
    llm_service := step1.2
    renderer := rendererCls
    processor_list := processors
    events := events }

/-- A resolved processor stage: whether it is one of the LLM-assisted
processors of the default list, and its behaviour, an external collaborator
that rewrites the document or raises. -/
structure Processor where
  llm_assisted : Bool
  run : Document → Except PyErr Document

/-- The processor-chain loop of `PdfConverter.build_document`
(pdf.py lines 223-224): each processor is applied in order to the document;
an exception from any processor propagates and ends the loop. -/
def run_processors : List Processor → Document → Except PyErr Document
  | [], document => .ok document
  | p :: ps, document =>
      match p.run document with
      | .ok d => run_processors ps d
      | .error e => .error e

/-- The filesystem state seen by the temporary-file code: the set of existing
paths, and the paths on which `os.unlink` raises `OSError`. -/
structure FS where
  files : List String
  failing : List String
  deriving Repr, DecidableEq

/-- `os.path.exists`. -/
def os_path_exists (fs : FS) (p : String) : Bool := decide (p ∈ fs.files)

/-- `os.unlink`: raises `OSError` on a failing path, otherwise removes it. -/
def os_unlink (fs : FS) (p : String) : Except PyErr FS :=
  if p ∈ fs.failing then .error .osError
  else .ok { fs with files := fs.files.filter (fun x => x != p) }

/-- Creating and writing the named temporary file. -/
def writeTemp (fs : FS) (p : String) : FS :=
  { fs with files := if p ∈ fs.files then fs.files else fs.files ++ [p] }

/-- The input accepted by `filepath_to_str`: a filesystem path or an
`io.BytesIO` buffer (its contents opaque), per the declared
`Union[str, io.BytesIO]`. -/
inductive FileInput
  | path (p : String)
  | bytesio (content : Nat)

/-- `PdfConverter.filepath_to_str` (pdf.py lines 188-209) applied to a
continuation `body` (the code of the `with` block in `__call__`).  For a
string input the path is yielded as-is and `temp_file` stays `None`, so the
`finally` block does nothing.  For a `BytesIO` input a named temporary file
`tmpName` (the fresh name chosen by `tempfile.NamedTemporaryFile`) is created
and written, the body runs on it, and the `finally` block unlinks it when it
still exists — an exception from that unlink propagates out of the `finally`
block, replacing the body's result, exactly as in Python. -/
def filepath_to_str {A : Type} (fs : FS) (file_input : FileInput) (tmpName : String)
    (body : String → FS → Except PyErr A × FS) : Except PyErr A × FS :=
  match file_input with
  | .path p => body p fs
  | .bytesio _ =>
      let fs1 := writeTemp fs tmpName
      let res := body tmpName fs1
      if os_path_exists res.2 tmpName then
        match os_unlink res.2 tmpName with
        | .ok fs3 => (res.1, fs3)
        | .error e => (.error e, res.2)
      else res

/-- The `finally` block of `filepath_to_str` on its own (pdf.py lines 207-209):
the Facade's cleanup step, for a given `temp_file` value. -/
def cleanup_temp (fs : FS) (temp_file : Option String) : Except PyErr Unit × FS :=
  match temp_file with
  | none => (.ok (), fs)
  | some t =>
      if os_path_exists fs t then
        match os_unlink fs t with
        | .ok fs1 => (.ok (), fs1)
        | .error e => (.error e, fs)
      else (.ok (), fs)

/-- The cleanup step of the HTTP handler `parse_pdf` (main.py lines 117-123):
same guard, but the unlink is wrapped in `try/except OSError: pass`, so it
never raises. -/
def parse_pdf_cleanup (fs : FS) (tmp_path : Option String) : FS :=
  match tmp_path with
  | none => fs
  | some t =>
      if os_path_exists fs t then
        match os_unlink fs t with
        | .ok fs1 => fs1
        | .error _ => fs
      else fs

/-- A helper for stating claims about the images mapping inside a render
result: the image payload stored under key `k` of the `images` entry. -/
def imagesKey (out : Dict RVal) (k : String) : Option Nat :=
  match lookupD out "images" with
  | some (RVal.images m) => lookupD m k
  | _ => none

/-- Concrete single-page document used by the concrete-input theorems. -/
def page1 : Page :=
  { page_id := "p1", ignore_for_output := false, structure_ := ["b1"], blocks := ["b1"] }

def doc1 : Document := { pages := [page1] }

/-- Concrete page-markdown renderer: payload 0, one image under "a",
metadata 10. -/
def pmRenderer0 : Renderer :=
  { kind := .pageMarkdown, run := fun _ => (0, [("a", 1)], 10) }

/-- Concrete chunk renderer: payload 1, one image under "b", metadata 20. -/
def chRenderer0 : Renderer :=
  { kind := .chunk, run := fun _ => (1, [("b", 2)], 20) }

/-- Concrete non-ignored page whose structure list is empty. -/
def pageEmpty : Page :=
  { page_id := "p1", ignore_for_output := false, structure_ := [], blocks := ["b1"] }

def docEmpty : Document := { pages := [pageEmpty] }

/-- Concrete LLM-assisted processor whose invocation raises. -/
def procFail : Processor :=
  { llm_assisted := true, run := fun _ => .error (.exc "llm failure") }

/-- Concrete processor that leaves the document unchanged. -/
def procId : Processor := { llm_assisted := false, run := fun d => .ok d }

/-- Concrete caller configuration for the construction theorems. -/
def cfg0 : Dict CVal :=
  [("renderer", CVal.str "pageMarkdown"), ("use_llm", CVal.bool false),
   ("disable_ocr", CVal.bool true)]

/-- Concrete filesystem on which unlinking the temporary file fails. -/
def fsFail : FS := { files := [], failing := ["tmp.pdf"] }

/-- Concrete with-block body that succeeds with 42 and leaves the filesystem
unchanged. -/
def bodyOk : String → FS → Except PyErr Nat × FS := fun _ s => (.ok 42, s)

/-! ## Dictionary lemmas -/

/-- Looking up the key just assigned yields the assigned value. -/
theorem lookupD_updateD_self {V : Type} (d : Dict V) (k : String) (v : V) :
    lookupD (updateD d k v) k = some v := by
  induction d with
  | nil => simp [updateD, lookupD]
  | cons p ds ih =>
    by_cases h : p.1 = k
    · simp [updateD, lookupD, h]
    · simp [updateD, lookupD, h, ih]

/-- Assigning one key leaves the lookup of every other key unchanged. -/
theorem lookupD_updateD_ne {V : Type} (d : Dict V) (k k1 : String) (v : V)
    (h : k1 ≠ k) : lookupD (updateD d k v) k1 = lookupD d k1 := by
  induction d with
  | nil => simp [updateD, lookupD, Ne.symm h]
  | cons p ds ih =>
    by_cases hp : p.1 = k
    · simp [updateD, lookupD, hp, Ne.symm h]
    · by_cases hp1 : p.1 = k1
      · simp [updateD, lookupD, hp, hp1, h]
      · simp [updateD, lookupD, hp, hp1, ih]

/-- A key outside the key list of a dict looks up to nothing. -/
theorem lookupD_eq_none_of_not_mem_keys {V : Type} (d : Dict V) (k : String)
    (h : k ∉ keysD d) : lookupD d k = none := by
  induction d with
  | nil => rfl
  | cons p ds ih =>
    simp only [keysD, List.map_cons, List.mem_cons, not_or] at h
    simp [lookupD, Ne.symm h.1, ih (by simpa [keysD] using h.2)]

/-- A key a dict does not contain looks up to nothing. -/
theorem lookupD_eq_none_of_contains_eq_false {V : Type} (d : Dict V) (k : String)
    (h : containsD d k = false) : lookupD d k = none := by
  induction d with
  | nil => rfl
  | cons p ds ih =>
    simp only [containsD, Bool.or_eq_false_iff, beq_eq_false_iff_ne] at h
    simp [lookupD, h.1, ih h.2]

/-- Popping a key yields a sublist of the original dict. -/
theorem popD_sublist {V : Type} (d : Dict V) (k : String) :
    List.Sublist (popD d k) d := by
  induction d with
  | nil => simp [popD]
  | cons p ds ih =>
    simp only [popD]
    split
    · exact List.Sublist.cons _ (List.Sublist.refl ds)
    · exact List.Sublist.cons₂ _ ih

/-- Popping a key preserves distinctness of the keys. -/
theorem keysD_popD_nodup {V : Type} (d : Dict V) (k : String)
    (h : (keysD d).Nodup) : (keysD (popD d k)).Nodup := by
  simp only [keysD] at h ⊢
  exact List.Nodup.sublist (List.Sublist.map (fun p => p.1) (popD_sublist d k)) h

/-- On a dict with distinct keys, popping a key removes it from lookup. -/
theorem lookupD_popD_self_of_nodup {V : Type} (d : Dict V) (k : String)
    (h : (keysD d).Nodup) : lookupD (popD d k) k = none := by
  induction d with
  | nil => rfl
  | cons p ds ih =>
    simp only [keysD, List.map_cons, List.nodup_cons] at h
    by_cases hp : p.1 = k
    · have hm : k ∉ keysD ds := by
        simpa [keysD, hp] using h.1
      simp [popD, hp, lookupD_eq_none_of_not_mem_keys ds k hm]
    · simp [popD, lookupD, hp, ih h.2]

/-- Popping one key leaves the lookup of every other key unchanged. -/
theorem lookupD_popD_ne {V : Type} (d : Dict V) (k k1 : String) (h : k1 ≠ k) :
    lookupD (popD d k) k1 = lookupD d k1 := by
  induction d with
  | nil => rfl
  | cons p ds ih =>
    by_cases hp : p.1 = k
    · simp [popD, lookupD, hp, Ne.symm h]
    · by_cases hp1 : p.1 = k1
      · simp [popD, lookupD, hp, hp1, h]
      · simp [popD, lookupD, hp, hp1, ih]

/-- The guarded pop of `__init__` leaves the lookup of other keys unchanged. -/
theorem lookupD_popGuard_ne {V : Type} (d : Dict V) (k k1 : String) (h : k1 ≠ k) :
    lookupD (if containsD d k then popD d k else d) k1 = lookupD d k1 := by
  by_cases hc : containsD d k <;> simp [hc, lookupD_popD_ne d k k1 h]

/-- The guarded pop of `__init__` removes the popped key from lookup (on a
dict with distinct keys). -/
theorem lookupD_popGuard_self {V : Type} (d : Dict V) (k : String)
    (h : (keysD d).Nodup) :
    lookupD (if containsD d k then popD d k else d) k = none := by
  by_cases hc : containsD d k
  · simp [hc, lookupD_popD_self_of_nodup d k h]
  · simp only [hc, if_false]
    exact lookupD_eq_none_of_contains_eq_false d k (by simpa using hc)

/-- The guarded pop preserves distinctness of the keys. -/
theorem keysD_popGuard_nodup {V : Type} (d : Dict V) (k : String)
    (h : (keysD d).Nodup) :
    (keysD (if containsD d k then popD d k else d)).Nodup := by
  by_cases hc : containsD d k <;> simp [hc, keysD_popD_nodup d k h, h]

/-! ## Page-structure and renderer lemmas -/

/-- The page-structure loop never touches the entry of a page id that does not
occur in the remaining pages. -/
theorem page_structure_foldl_preserve (ps : List Page) (d : Dict (List String))
    (k : String) (h : k ∉ ps.map Page.page_id) :
    lookupD (ps.foldl page_structure_step d) k = lookupD d k := by
  induction ps generalizing d with
  | nil => rfl
  | cons q qs ih =>
    simp only [List.map_cons, List.mem_cons, not_or] at h
    rw [List.foldl_cons, ih _ h.2]
    exact lookupD_updateD_ne d q.page_id k _ h.1

/-- On pages with distinct ids, the page-structure loop stores under each
page's id exactly the value its own iteration assigned. -/
theorem page_structure_foldl_lookup (ps : List Page) (d : Dict (List String))
    (hnd : (ps.map Page.page_id).Nodup) (p : Page) (hp : p ∈ ps) :
    lookupD (ps.foldl page_structure_step d) p.page_id =
      some (if p.ignore_for_output then [] else p.structure_) := by
  induction ps generalizing d with
  | nil => cases hp
  | cons q qs ih =>
    simp only [List.map_cons, List.nodup_cons] at hnd
    rcases List.mem_cons.mp hp with hq | hqs
    · subst hq
      rw [List.foldl_cons, page_structure_foldl_preserve qs _ _ hnd.1]
      exact lookupD_updateD_self d p.page_id _
    · rw [List.foldl_cons]
      exact ih _ hnd.2 hqs

/-- The renderer dispatch of `PdfConverter.render` passes the renderer's
images and metadata through unchanged, whatever the renderer class. -/
theorem render_images_metadata_passthrough (r : Renderer) (document : Document) :
    (PdfConverter.render r document).2.2.1 = (r.run document).2.1 ∧
    (PdfConverter.render r document).2.2.2 = (r.run document).2.2 := by
  cases r with
  | mk kind run => cases kind <;> exact ⟨rfl, rfl⟩

/-! ## Claim theorems -/

/-- Claim C1, counterexample: for the default renderer configuration (the list
of a page-markdown and a chunk renderer, pdf.py line 165) on a concrete
single-page document, the Render Result built by `render_document` has the
five keys page_structure, page_renders, images, chunks, metadata — not
"exactly the two default output keys page_renders and chunks and no others"
as the claim's first part states. -/
theorem c1_counterexample :
    (render_document (RendererCfg.list [pmRenderer0, chRenderer0]) doc1).map keysD =
      Except.ok ["page_structure", "page_renders", "images", "chunks", "metadata"] ∧
    (["page_structure", "page_renders", "images", "chunks", "metadata"] : List String) ≠
      ["page_renders", "chunks"] := by
  exact ⟨rfl, by decide⟩

/-- Claim C1 (amended): with the default renderer list (a page-markdown and a
chunk renderer, whatever their behaviours), `render_document` succeeds and its
key set is exactly page_structure, page_renders, images, chunks, metadata, in
that order; and on a single-page document the page_structure entry has exactly
one entry, keyed by that page's id. -/
theorem c1_render_result_keys (f g : Document → Nat × Images × Nat)
    (document : Document) (p : Page) :
    (∃ out, render_document (RendererCfg.list
        [{ kind := .pageMarkdown, run := f }, { kind := .chunk, run := g }]) document =
        .ok out ∧
      keysD out = ["page_structure", "page_renders", "images", "chunks", "metadata"]) ∧
    (∃ out1, render_document (RendererCfg.list
        [{ kind := .pageMarkdown, run := f }, { kind := .chunk, run := g }])
        { pages := [p] } = .ok out1 ∧
      lookupD out1 "page_structure" =
        some (RVal.pstruct
          [(p.page_id, if p.ignore_for_output then [] else p.structure_)])) := by
  refine ⟨⟨_, rfl, rfl⟩, ⟨_, rfl, rfl⟩⟩

/-- Claim C2: evaluating the renderer-selector parser at the unknown token
"pdf2html" raises `UnboundLocalError("renderer")` — not the
`ConfigurationError` naming the offending token that the claim requires.  The
parser reads its never-assigned local `renderer` before any branch runs, so
this happens for every input. -/
theorem c2_renderer2cls_raises :
    renderer2cls (some "pdf2html") = .error (.unboundLocal "renderer") := rfl

/-- Claim C3, counterexample: a raising LLM-assisted processor placed before a
well-behaved processor aborts the whole chain — the loop of `build_document`
propagates the exception instead of skipping and continuing as the claim
states. -/
theorem c3_counterexample :
    run_processors [procFail, procId] doc1 = .error (.exc "llm failure") := rfl

/-- Claim C3 (amended): the processor chain has a single failure policy — the
first processor that raises aborts the whole conversion with its exception,
regardless of whether the processor is LLM-assisted or structural and
regardless of how many processors ran successfully before it. -/
theorem c3_processor_failure_aborts (n : Nat) (ps : List Processor)
    (d : Document) (e : PyErr) (b : Bool) :
    run_processors (List.replicate n procId ++
      ({ llm_assisted := b, run := fun _ => .error e } :: ps)) d = .error e := by
  induction n generalizing d with
  | zero => rfl
  | succ m ih => simpa [List.replicate_succ, run_processors, procId] using ih d

/-- Claim C4, counterexample: with two renderers whose images mappings have
the disjoint keys "a" and "b", the final images entry is the second renderer's
mapping wholesale — the first renderer's non-conflicting key "a" is lost, so
the entry is not the per-key merge the claim describes. -/
theorem c4_counterexample :
    (render_document (RendererCfg.list [pmRenderer0, chRenderer0]) doc1).map
        (fun out => lookupD out "images") = .ok (some (RVal.images [("b", 2)])) ∧
    (render_document (RendererCfg.list [pmRenderer0, chRenderer0]) doc1).map
        (fun out => imagesKey out "a") = .ok none := by
  exact ⟨rfl, rfl⟩

/-- Claim C4 (amended): for any non-empty renderer list, the Render Result's
images entry is the last renderer's entire images mapping (each loop iteration
overwrites `out_render['images']` wholesale) and the metadata entry is the
last renderer's metadata. -/
theorem c4_last_renderer_wins (document : Document) (rs : List Renderer)
    (r : Renderer) :
    ∃ out, render_document (RendererCfg.list (rs ++ [r])) document = .ok out ∧
      lookupD out "images" = some (RVal.images (r.run document).2.1) ∧
      lookupD out "metadata" = some (RVal.meta (r.run document).2.2) := by
  have hpass := render_images_metadata_passthrough r document
  simp only [render_document]
  rw [List.foldl_append]
  simp only [List.foldl_cons, List.foldl_nil]
  refine ⟨_, rfl, ?_, ?_⟩
  · rw [lookupD_updateD_ne _ "metadata" "images" _ (by decide),
      lookupD_updateD_self, hpass.1]
  · rw [lookupD_updateD_self, hpass.2]

/-- Claim C5, counterexample: a page that is not flagged ignored but has an
empty structure list gets the `page_structure` entry `[]`, so an entry of `[]`
does not imply the page was ignored and the non-ignored entry need not be
non-empty, contrary to the claim's dichotomy. -/
theorem c5_counterexample :
    pageEmpty.ignore_for_output = false ∧
    lookupD (page_structure docEmpty) "p1" = some [] := by
  exact ⟨rfl, rfl⟩

/-- Claim C5 (amended): on a document whose pages have distinct ids, the
`page_structure` entry of each page is `[]` when the page is flagged ignored
and otherwise is exactly the page's (possibly empty) ordered structure
identity list; and whenever the page satisfies referential integrity (every
structure identity resolves to a block on the page), so does every identity
in the stored entry. -/
theorem c5_page_structure_entries (document : Document)
    (hnd : (document.pages.map Page.page_id).Nodup)
    (p : Page) (hp : p ∈ document.pages) :
    ∃ l, lookupD (page_structure document) p.page_id = some l ∧
      (p.ignore_for_output = true → l = []) ∧
      (p.ignore_for_output = false → l = p.structure_) ∧
      ((∀ a ∈ p.structure_, a ∈ p.blocks) → ∀ a ∈ l, a ∈ p.blocks) := by
  refine ⟨_, page_structure_foldl_lookup document.pages [] hnd p hp, ?_, ?_, ?_⟩
  · intro h
    simp [h]
  · intro h
    simp [h]
  · intro hres a ha
    by_cases hio : p.ignore_for_output = true
    · simp [hio] at ha
    · simp only [hio, if_false] at ha
      exact hres a ha

/-- Claim C5 witness: the amended statement instantiated at the concrete
single-page document. -/
theorem c5_page_structure_entries_witness :
    (doc1.pages.map Page.page_id).Nodup ∧
    ∃ l, lookupD (page_structure doc1) page1.page_id = some l ∧
      (page1.ignore_for_output = true → l = []) ∧
      (page1.ignore_for_output = false → l = page1.structure_) ∧
      ((∀ a ∈ page1.structure_, a ∈ page1.blocks) → ∀ a ∈ l, a ∈ page1.blocks) :=
  ⟨by decide, c5_page_structure_entries doc1 (by decide) page1 (by decide)⟩

/-- Claim C6: during construction, the Shared Artifact Bag's "llm_service"
entry is written exactly once — the only bag write in the event trace, placed
before the `initialize_processors` stage resolution — and when `use_llm` is
false and no explicit `llm_service` was configured, the written value (and
hence the bag entry) is `None`. -/
theorem c6_llm_service_bag (bag : Dict (Option String)) (plist : Option (List String))
    (config : Dict CVal) (renderer : PyVal) :
    (∃ pre,
      (PdfConverter.init_after_renderer bag plist config renderer).events =
        pre ++ [InitEvent.bagWrite "llm_service"
            (PdfConverter.init_after_renderer bag plist config renderer).llm_service,
          InitEvent.initProcessors] ∧
      pre.filter isBagWrite = []) ∧
    (getBoolC config "use_llm" false = false →
      ((lookupD config "llm_service").map truthyC).getD false = false →
      (PdfConverter.init_after_renderer bag plist config renderer).llm_service = none ∧
      lookupD (PdfConverter.init_after_renderer bag plist config renderer).artifact_dict
        "llm_service" = some none) := by
  constructor
  · simp only [PdfConverter.init_after_renderer]
    set c1 := if containsD config "renderer" then popD config "renderer" else config with hc1
    set c2 := if containsD c1 "llm_service" then popD c1 "llm_service" else c1 with hc2
    by_cases hA : ((lookupD c1 "llm_service").map truthyC).getD false = true
    · refine ⟨_, rfl, ?_⟩
      simp [hA, isBagWrite]
    · by_cases hB : getBoolC c2 "use_llm" false = true
      · refine ⟨_, rfl, ?_⟩
        simp [hA, hB, isBagWrite]
      · refine ⟨_, rfl, ?_⟩
        simp [hA, hB]
  · intro h1 h2
    simp only [PdfConverter.init_after_renderer]
    set c1 := if containsD config "renderer" then popD config "renderer" else config with hc1
    have hllm : lookupD c1 "llm_service" = lookupD config "llm_service" := by
      rw [hc1]
      exact lookupD_popGuard_ne config "renderer" "llm_service" (by decide)
    set c2 := if containsD c1 "llm_service" then popD c1 "llm_service" else c1 with hc2
    have huse : getBoolC c2 "use_llm" false = getBoolC config "use_llm" false := by
      have hu : lookupD c2 "use_llm" = lookupD config "use_llm" := by
        rw [hc2, hc1,
          lookupD_popGuard_ne _ "llm_service" "use_llm" (by decide),
          lookupD_popGuard_ne _ "renderer" "use_llm" (by decide)]
      unfold getBoolC
      rw [hu]
    rw [hllm, huse, h1, h2]
    refine ⟨by simp, ?_⟩
    simp [lookupD_updateD_self]

/-- Claim C6 witness: the construction theorem instantiated at a concrete
configuration with `use_llm` false and no `llm_service` key: the bag entry
holds `None`. -/
theorem c6_llm_service_bag_witness :
    getBoolC cfg0 "use_llm" false = false ∧
    ((lookupD cfg0 "llm_service").map truthyC).getD false = false ∧
    lookupD (PdfConverter.init_after_renderer [] none cfg0 PyVal.none_).artifact_dict
      "llm_service" = some none :=
  ⟨by decide, by decide,
    ((c6_llm_service_bag [] none cfg0 PyVal.none_).2 (by decide) (by decide)).2⟩

/-- Claim C7, counterexample: the caller's configuration is not left
unchanged — after construction the caller's "renderer" key has been popped
from the config dict. -/
theorem c7_counterexample :
    lookupD cfg0 "renderer" = some (CVal.str "pageMarkdown") ∧
    lookupD (PdfConverter.init_after_renderer [] none cfg0 PyVal.none_).config
      "renderer" = none := by
  exact ⟨rfl, rfl⟩

/-- Claim C7 (amended): construction removes exactly the keys "renderer" and
"llm_service" from the caller's configuration dict (which all stages then
share); the lookup of every other key is unchanged. -/
theorem c7_config_pops (bag : Dict (Option String)) (plist : Option (List String))
    (config : Dict CVal) (renderer : PyVal) (hnd : (keysD config).Nodup) :
    lookupD (PdfConverter.init_after_renderer bag plist config renderer).config
      "renderer" = none ∧
    lookupD (PdfConverter.init_after_renderer bag plist config renderer).config
      "llm_service" = none ∧
    ∀ k, k ≠ "renderer" → k ≠ "llm_service" →
      lookupD (PdfConverter.init_after_renderer bag plist config renderer).config k =
        lookupD config k := by
  simp only [PdfConverter.init_after_renderer]
  refine ⟨?_, ?_, ?_⟩
  · rw [lookupD_popGuard_ne _ "llm_service" "renderer" (by decide)]
    exact lookupD_popGuard_self config "renderer" hnd
  · exact lookupD_popGuard_self _ "llm_service" (keysD_popGuard_nodup config "renderer" hnd)
  · intro k hk1 hk2
    rw [lookupD_popGuard_ne _ "llm_service" k hk2, lookupD_popGuard_ne _ "renderer" k hk1]

/-- Claim C7 witness: at the concrete configuration, a key other than the two
popped ones looks up unchanged after construction. -/
theorem c7_config_pops_witness :
    (keysD cfg0).Nodup ∧
    lookupD (PdfConverter.init_after_renderer [] none cfg0 PyVal.none_).config
      "disable_ocr" = lookupD cfg0 "disable_ocr" :=
  ⟨by decide,
    (c7_config_pops [] none cfg0 PyVal.none_ (by decide)).2.2 "disable_ocr"
      (by decide) (by decide)⟩

/-- Claim C8, counterexample: on a filesystem where unlinking the temporary
file raises, a conversion whose body succeeded with 42 returns the cleanup
`OSError` instead — the `finally` block of `filepath_to_str` has no exception
guard, so a cleanup failure replaces the primary result (and the temporary
file survives). -/
theorem c8_counterexample :
    filepath_to_str fsFail (FileInput.bytesio 0) "tmp.pdf" bodyOk =
      (Except.error PyErr.osError,
        { files := ["tmp.pdf"], failing := ["tmp.pdf"] }) ∧
    (bodyOk "tmp.pdf" (writeTemp fsFail "tmp.pdf")).1 = Except.ok 42 := by
  exact ⟨rfl, rfl⟩

/-- Claim C8 (amended): for a byte-buffer input whose temporary file unlinks
cleanly (and a body that does not change which paths fail to unlink), the
body's result — success or error — is returned unchanged and the temporary
file is absent from the final filesystem on every exit path; but when the
unlink itself raises, that exception replaces the primary result (see the C8
counterexample). -/
theorem c8_temp_cleanup {A : Type} (fs : FS) (content : Nat) (tmp : String)
    (body : String → FS → Except PyErr A × FS)
    (hfail : tmp ∉ fs.failing)
    (hbody : ∀ p s, ((body p s).2).failing = s.failing) :
    (filepath_to_str fs (FileInput.bytesio content) tmp body).1 =
      (body tmp (writeTemp fs tmp)).1 ∧
    tmp ∉ ((filepath_to_str fs (FileInput.bytesio content) tmp body).2).files := by
  have hf2 : ((body tmp (writeTemp fs tmp)).2).failing = fs.failing := by
    rw [hbody]
    rfl
  simp only [filepath_to_str]
  by_cases hex : os_path_exists ((body tmp (writeTemp fs tmp)).2) tmp = true
  · simp only [hex, if_true]
    have hun : os_unlink ((body tmp (writeTemp fs tmp)).2) tmp =
        .ok { (body tmp (writeTemp fs tmp)).2 with
          files := ((body tmp (writeTemp fs tmp)).2).files.filter (fun x => x != tmp) } := by
      simp [os_unlink, hf2, hfail]
    rw [hun]
    refine ⟨rfl, ?_⟩
    simp [List.mem_filter]
  · simp only [hex, if_false]
    refine ⟨rfl, ?_⟩
    simpa [os_path_exists] using hex

/-- Claim C8 witness: the amended statement at a concrete run — the body
succeeds and the temporary file is gone afterwards. -/
theorem c8_temp_cleanup_witness :
    ("tmp.pdf" ∉ (FS.mk ["doc.pdf"] []).failing) ∧
    "tmp.pdf" ∉
      ((filepath_to_str (FS.mk ["doc.pdf"] []) (FileInput.bytesio 5) "tmp.pdf"
        bodyOk).2).files :=
  ⟨by decide,
    (c8_temp_cleanup (FS.mk ["doc.pdf"] []) 5 "tmp.pdf" bodyOk (by decide)
      (fun _ _ => rfl)).2⟩

/-- Claim C9: the Facade's cleanup step (the guarded unlink of the `finally`
block) is idempotent — after a first cleanup on a filesystem where the unlink
does not fail, a second invocation finds the file gone, takes the guard's
no-op branch, and returns without raising; in particular on any state where
the temporary file is already absent, cleanup returns `ok` and changes
nothing. -/
theorem c9_cleanup_idempotent (fs : FS) (t : String) (hfail : t ∉ fs.failing) :
    cleanup_temp ((cleanup_temp fs (some t)).2) (some t) =
      (Except.ok (), (cleanup_temp fs (some t)).2) ∧
    (os_path_exists fs t = false → cleanup_temp fs (some t) = (Except.ok (), fs)) := by
  constructor
  · by_cases hex : os_path_exists fs t = true
    · have hun : os_unlink fs t =
          .ok { fs with files := fs.files.filter (fun x => x != t) } := by
        simp [os_unlink, hfail]
      have h1 : (cleanup_temp fs (some t)).2 =
          { fs with files := fs.files.filter (fun x => x != t) } := by
        simp [cleanup_temp, hex, hun]
      rw [h1]
      have hex2 : os_path_exists
          { fs with files := fs.files.filter (fun x => x != t) } t = false := by
        simp [os_path_exists, List.mem_filter]
      simp [cleanup_temp, hex2]
    · have h1 : (cleanup_temp fs (some t)).2 = fs := by
        simp [cleanup_temp, hex]
      rw [h1]
      simp [cleanup_temp, hex]
  · intro h
    simp [cleanup_temp, h]

/-- Claim C9 witness: the idempotence statement at a concrete filesystem
holding the temporary file. -/
theorem c9_cleanup_idempotent_witness :
    ("tmp.pdf" ∉ (FS.mk ["tmp.pdf"] []).failing) ∧
    cleanup_temp ((cleanup_temp (FS.mk ["tmp.pdf"] []) (some "tmp.pdf")).2)
        (some "tmp.pdf") =
      (Except.ok (), (cleanup_temp (FS.mk ["tmp.pdf"] []) (some "tmp.pdf")).2) :=
  ⟨by decide, (c9_cleanup_idempotent (FS.mk ["tmp.pdf"] []) "tmp.pdf" (by decide)).1⟩

/-- Claim C10: for a string-path input, `filepath_to_str` is exactly the body
applied to that path on the unchanged filesystem — no temporary file is
created, `temp_file` stays `None`, and the `finally` block deletes nothing, so
a body that leaves the filesystem unchanged leaves the caller's file intact;
a temporary file enters the filesystem only on the byte-buffer branch. -/
theorem c10_path_passthrough {A : Type} (fs : FS) (p tmp : String)
    (body : String → FS → Except PyErr A × FS) :
    filepath_to_str fs (FileInput.path p) tmp body = body p fs ∧
    ((body p fs).2 = fs →
      ((filepath_to_str fs (FileInput.path p) tmp body).2).files = fs.files) ∧
    tmp ∈ (writeTemp fs tmp).files := by
  refine ⟨rfl, ?_, ?_⟩
  · intro h
    show ((body p fs).2).files = fs.files
    rw [h]
  · by_cases h : tmp ∈ fs.files <;> simp [writeTemp, h]

/-- Claim C10 witness: at a concrete path input with a filesystem-preserving
body, the caller's filesystem is unchanged. -/
theorem c10_path_passthrough_witness :
    ((bodyOk "doc.pdf" fsFail).2 = fsFail) ∧
    ((filepath_to_str fsFail (FileInput.path "doc.pdf") "tmp.pdf" bodyOk).2).files =
      fsFail.files :=
  ⟨rfl, (c10_path_passthrough fsFail "doc.pdf" "tmp.pdf" bodyOk).2.1 rfl⟩
